import Mathlib

/-!
Shallow embedding of the longevity-map gap-scoring and resource-matching
pipeline (agents `resource_mapper`, `gap_analyzer`, `funding_agent`,
`capability_extractor`), with theorems settling the frozen claims about it.

Similarity scores, costs and research values are modelled as rationals (ℚ);
Python string processing (`str.lower`, `str.split`) is modelled over the
character lists underlying Lean strings; database query results are modelled
as the lists of rows the queries would return.
-/

/-- A resource row; the fields `find_duplicates` and `_simple_similarity`
read (`id`, `name`, `description`, `is_active`). -/
structure Resource where
  id : Nat
  name : String
  description : String
  is_active : Bool
deriving DecidableEq, Repr

/-- Python-style whitespace split of a character list: splits on whitespace
runs and drops empty tokens, as `str.split()` with no argument does.
`acc` holds the current token, reversed. -/
def split_ws : List Char → List Char → List (List Char)
  | [], acc => if acc.isEmpty then [] else [acc.reverse]
  | c :: rest, acc =>
    if c.isWhitespace then
      if acc.isEmpty then split_ws rest [] else acc.reverse :: split_ws rest []
    else
      split_ws rest (c :: acc)

/-- Python's `text.lower().split()`: lower-case the text, then whitespace-tokenize. -/
def py_lower_split (s : String) : List (List Char) :=
  split_ws (s.data.map Char.toLower) []

/-- The text a resource contributes to similarity scoring:
`f"{resource.name} {resource.description}"`. -/
def resource_text (r : Resource) : String :=
  r.name ++ " " ++ r.description

/-- Embeds `ResourceMapper._simple_similarity`: token-set Jaccard similarity between
the capability text and the resource's name-plus-description text. -/
def simple_similarity (capability_text : String) (resource : Resource) : ℚ :=
  let capability_words := (py_lower_split capability_text).dedup
  let resource_words := (py_lower_split (resource_text resource)).dedup
  if capability_words.isEmpty || resource_words.isEmpty then 0
  else
    let intersection := capability_words.filter (fun w => resource_words.contains w)
    let union := capability_words ∪ resource_words
    if union.isEmpty then 0 else (intersection.length : ℚ) / (union.length : ℚ)

/-- Embeds `ResourceMapper._calculate_similarity`: when a sentence-transformer model
is loaded it scores the pair of texts (modelled abstractly as a function
`String → String → ℚ`); when `self.model` is `None` it falls back to
`_simple_similarity`. -/
def calculate_similarity (model : Option (String → String → ℚ))
    (capability_text : String) (resource : Resource) : ℚ :=
  match model with
  | none => simple_similarity capability_text resource
  | some encode_score => encode_score capability_text (resource_text resource)

/-- Inner loop of `ResourceMapper.find_duplicates`: scan the resources after
the seed `r1`, skipping ids already in `processed`, attaching every resource
whose similarity to the seed meets `threshold` and marking it processed.
Returns the attached resources (in scan order) and the updated processed set. -/
def attach_duplicates (model : Option (String → String → ℚ)) (threshold : ℚ)
    (r1 : Resource) : List Resource → List Nat → List Resource × List Nat
  | [], processed => ([], processed)
  | r2 :: rest, processed =>
    if r2.id ∈ processed then
      attach_duplicates model threshold r1 rest processed
    else if threshold ≤ calculate_similarity model (resource_text r1) r2 then
      let (group, processed') := attach_duplicates model threshold r1 rest (r2.id :: processed)
      (r2 :: group, processed')
    else
      attach_duplicates model threshold r1 rest processed

/-- Outer loop of `ResourceMapper.find_duplicates`: greedy single-pass
clustering over the active resources, emitting a cluster only when the seed
attached at least one other resource. -/
def find_duplicates_loop (model : Option (String → String → ℚ)) (threshold : ℚ) :
    List Resource → List Nat → List (List Resource)
  | [], _ => []
  | r1 :: rest, processed =>
    if r1.id ∈ processed then
      find_duplicates_loop model threshold rest processed
    else
      let (group, processed') := attach_duplicates model threshold r1 rest processed
      if group.isEmpty then
        find_duplicates_loop model threshold rest processed'
      else
        (r1 :: group) :: find_duplicates_loop model threshold rest (r1.id :: processed')

/-- Embeds `ResourceMapper.find_duplicates`: restrict the catalog to active
resources; if there are none, or no embedding model is loaded
(`self.model is None`), return the empty list; otherwise run the greedy
clustering. -/
def find_duplicates (model : Option (String → String → ℚ))
    (catalog : List Resource) (threshold : ℚ) : List (List Resource) :=
  let resources := catalog.filter (fun r => r.is_active)
  if resources.isEmpty || model.isNone then []
  else find_duplicates_loop model threshold resources []

/-- A capability row; the fields `GapAnalyzer.process` reads
(`id`, `name`, `estimated_cost`, `estimated_time`). A cost or time of
`none` models SQL NULL. -/
structure Capability where
  id : Nat
  name : String
  estimated_cost : Option ℚ
  estimated_time : Option ℚ
deriving DecidableEq, Repr

/-- A `CapabilityResourceMapping` row as filtered by `GapAnalyzer.process`. -/
structure CapabilityResourceMapping where
  capability_id : Nat
  match_score : ℚ
deriving DecidableEq, Repr

/-- A `ProblemCapabilityMapping` row as filtered by `GapAnalyzer.process`;
`is_required` is the integer column compared against 1. -/
structure ProblemCapabilityMapping where
  capability_id : Nat
  is_required : Nat
deriving DecidableEq, Repr

/-- The `GapPriority` enum. -/
inductive GapPriority where
  | low
  | medium
  | high
  | critical
deriving DecidableEq, Repr

/-- Rank of a priority tier in the ordering critical > high > medium > low. -/
def GapPriority.rank : GapPriority → Nat
  | .low => 0
  | .medium => 1
  | .high => 2
  | .critical => 3

/-- A `Gap` record as built by `GapAnalyzer.process`. -/
structure Gap where
  capability_id : Nat
  description : String
  estimated_cost : Option ℚ
  estimated_time : Option ℚ
  blocked_research_value : ℚ
  num_blocked_problems : Nat
  priority : GapPriority
  impact_score : ℚ
deriving DecidableEq, Repr

/-- Embeds `GapAnalyzer._determine_priority`. -/
def determine_priority (blocked_value : ℚ) (num_blocked : Nat) : GapPriority :=
  if 100000000 ≤ blocked_value ∨ 10 ≤ num_blocked then .critical
  else if 10000000 ≤ blocked_value ∨ 5 ≤ num_blocked then .high
  else if 1000000 ≤ blocked_value ∨ 2 ≤ num_blocked then .medium
  else .low

/-- Embeds `GapAnalyzer._calculate_impact_score` with the configured weights
(`cost_weight`, `time_weight`, `impact_weight`; defaults 0.3/0.3/0.4):
normalize the four components, combine them with the weights, clamp the
total to [0, 1]. -/
def calculate_impact_score (cost_weight time_weight impact_weight : ℚ)
    (cost time blocked_value : ℚ) (num_blocked : Nat) : ℚ :=
  let cost_score := min 1 (1 - cost / 10000000)
  let time_score := min 1 (1 - time / 60)
  let value_score := min 1 (blocked_value / 100000000)
  let problems_score := min 1 ((num_blocked : ℚ) / 20)
  let impact :=
    cost_weight * cost_score +
    time_weight * time_score +
    impact_weight * (value_score + problems_score) / 2
  min 1 (max 0 impact)

/-- Embeds `GapAnalyzer.process`: return `none` when some resource mapping for the
capability has `match_score ≥ 0.7`; otherwise count the required blocked
problems, value them at $2M each, and build the Gap record. The mapping
tables are modelled as the lists of rows the two queries filter. -/
def gap_analyzer_process (cost_weight time_weight impact_weight : ℚ)
    (resource_mappings : List CapabilityResourceMapping)
    (problem_mappings : List ProblemCapabilityMapping)
    (capability : Capability) : Option Gap :=
  let has_resources := resource_mappings.any
    (fun m => m.capability_id == capability.id && decide ((7 : ℚ)/10 ≤ m.match_score))
  if has_resources then none
  else
    let num_blocked := (problem_mappings.filter
      (fun m => m.capability_id == capability.id && m.is_required == 1)).length
    let blocked_value : ℚ := (num_blocked : ℚ) * 2000000
    let priority := determine_priority blocked_value num_blocked
    let impact_score := calculate_impact_score cost_weight time_weight impact_weight
      (capability.estimated_cost.getD 0) (capability.estimated_time.getD 0)
      blocked_value num_blocked
    some {
      capability_id := capability.id,
      description := "Missing capability: " ++ capability.name,
      estimated_cost := capability.estimated_cost,
      estimated_time := capability.estimated_time,
      blocked_research_value := blocked_value,
      num_blocked_problems := num_blocked,
      priority := priority,
      impact_score := impact_score
    }

/-- Truthiness of an optional numeric column, as Python evaluates it in an
`if`: `None` and 0 are falsy, everything else truthy. -/
def opt_truthy (x : Option ℚ) : Bool :=
  match x with
  | none => false
  | some v => v != 0

/-- The impact factor block of `FundingAgent.predict_funding_attractiveness`
(0–0.3): present when the gap blocks at least one problem. -/
def impact_factor (gap : Gap) : Option ℚ :=
  if 0 < gap.num_blocked_problems then
    some (min (3/10) ((gap.num_blocked_problems : ℚ) / 20 * (3/10)))
  else none

/-- The cost-efficiency factor block (0–0.2): present when `estimated_cost`
is truthy and the gap blocks at least one problem; tiered on cost per
blocked problem. -/
def cost_efficiency_factor (gap : Gap) : Option ℚ :=
  if opt_truthy gap.estimated_cost ∧ 0 < gap.num_blocked_problems then
    let cost_per_problem := gap.estimated_cost.getD 0 / (gap.num_blocked_problems : ℚ)
    some (if cost_per_problem < 1000000 then 2/10
          else if cost_per_problem < 5000000 then 1/10
          else 5/100)
  else none

/-- The market-size factor block (0–0.3): present when
`blocked_research_value` is truthy (i.e. nonzero); tiered at ≥$100M and
≥$10M, with every other truthy value falling into the 0.1 tier. -/
def market_size_factor (gap : Gap) : Option ℚ :=
  if gap.blocked_research_value ≠ 0 then
    some (if 100000000 ≤ gap.blocked_research_value then 3/10
          else if 10000000 ≤ gap.blocked_research_value then 2/10
          else 1/10)
  else none

/-- The technical-feasibility factor block (0–0.2): present when
`estimated_time` is truthy; tiered at ≤12 and ≤24 months. -/
def feasibility_factor (gap : Gap) : Option ℚ :=
  if opt_truthy gap.estimated_time then
    some (if gap.estimated_time.getD 0 ≤ 12 then 2/10
          else if gap.estimated_time.getD 0 ≤ 24 then 15/100
          else 1/10)
  else none

/-- One step of the running accumulation in
`predict_funding_attractiveness`: a present factor is added to the score and
recorded in the factors mapping under its name; an absent one changes
nothing. -/
def add_factor (acc : ℚ × List (String × ℚ)) (name : String) (factor : Option ℚ) :
    ℚ × List (String × ℚ) :=
  match factor with
  | some x => (acc.1 + x, acc.2 ++ [(name, x)])
  | none => acc

/-- The result dictionary of `predict_funding_attractiveness` (the `gap_id`
passthrough field is omitted). -/
structure FundingPrediction where
  attractiveness_score : ℚ
  factors : List (String × ℚ)
  predicted_funding_likelihood : String
deriving DecidableEq, Repr

/-- Embeds `FundingAgent.predict_funding_attractiveness`: accumulate the four
factor blocks in source order into a running score and a factors mapping;
return the score clamped to at most 1, the factors, and a likelihood label
computed from the unclamped running score. -/
def predict_funding_attractiveness (gap : Gap) : FundingPrediction :=
  let acc0 : ℚ × List (String × ℚ) := (0, [])
  let acc1 := add_factor acc0 "impact" (impact_factor gap)
  let acc2 := add_factor acc1 "cost_efficiency" (cost_efficiency_factor gap)
  let acc3 := add_factor acc2 "market_size" (market_size_factor gap)
  let acc4 := add_factor acc3 "feasibility" (feasibility_factor gap)
  { attractiveness_score := min 1 acc4.1,
    factors := acc4.2,
    predicted_funding_likelihood :=
      if (7 : ℚ)/10 ≤ acc4.1 then "high"
      else if (4 : ℚ)/10 ≤ acc4.1 then "medium"
      else "low" }

/-- Substring containment on character lists: `contains_sub sub s` is
Python's `sub in s` (the empty list is contained in everything). -/
def contains_sub (sub : List Char) : List Char → Bool
  | [] => sub.isEmpty
  | c :: rest => sub.isPrefixOf (c :: rest) || contains_sub sub rest

/-- The per-candidate duplicate test of
`CapabilityExtractor._deduplicate_capabilities`: the candidate's lower-cased
name contains, or is contained in, some already-seen name. -/
def name_overlap (name_lower seen_name : List Char) : Bool :=
  contains_sub name_lower seen_name || contains_sub seen_name name_lower

/-- Loop of `CapabilityExtractor._deduplicate_capabilities`: keep a
candidate unless its lower-cased name overlaps an already-kept name; kept
names accumulate in `seen_names`. -/
def deduplicate_loop : List Capability → List (List Char) → List Capability
  | [], _ => []
  | cap :: rest, seen_names =>
    let name_lower := cap.name.data.map Char.toLower
    if seen_names.any (fun seen_name => name_overlap name_lower seen_name) then
      deduplicate_loop rest seen_names
    else
      cap :: deduplicate_loop rest (name_lower :: seen_names)

/-- Embeds `CapabilityExtractor._deduplicate_capabilities`. -/
def deduplicate_capabilities (capabilities : List Capability) : List Capability :=
  deduplicate_loop capabilities []

/-- Claim C6: priority assignment is monotone — if neither `num_blocked` nor
`blocked_value` decreases, the assigned tier does not decrease in the
ordering critical > high > medium > low. -/
theorem claim_C6 (v1 v2 : ℚ) (n1 n2 : Nat) (hv : v1 ≤ v2) (hn : n1 ≤ n2) :
    (determine_priority v1 n1).rank ≤ (determine_priority v2 n2).rank := by
  unfold determine_priority
  split_ifs <;> simp only [GapPriority.rank] <;>
    first
      | omega
      | (exfalso; push_neg at *; casesm* _ ∨ _ <;> linarith)

theorem claim_C6_witness :
    (determine_priority 0 0).rank ≤ (determine_priority 100000000 0).rank :=
  claim_C6 0 100000000 0 0 (by norm_num) (le_refl 0)

theorem dedup_loop_idem (caps : List Capability) :
    ∀ seen, deduplicate_loop (deduplicate_loop caps seen) seen =
      deduplicate_loop caps seen := by
  induction caps with
  | nil => intro seen; rfl
  | cons c rest ih =>
    intro seen
    cases h : seen.any
        (fun seen_name => name_overlap (c.name.data.map Char.toLower) seen_name) with
    | true => simp [deduplicate_loop, h, ih]
    | false => simp [deduplicate_loop, h, ih]

/-- Claim C7: capability deduplication is idempotent — applying the
substring-containment dedup to its own output returns that output
unchanged. -/
theorem claim_C7 (caps : List Capability) :
    deduplicate_capabilities (deduplicate_capabilities caps) =
      deduplicate_capabilities caps :=
  dedup_loop_idem caps []

/-- Claim C3: the Gap Scorer returns `none` if and only if some resource
mapping for the capability has `match_score ≥ 0.7`; with no such mapping it
always returns a Gap record, whatever the other inputs. -/
theorem claim_C3 (w1 w2 w3 : ℚ) (rms : List CapabilityResourceMapping)
    (pms : List ProblemCapabilityMapping) (cap : Capability) :
    gap_analyzer_process w1 w2 w3 rms pms cap = none ↔
      ∃ m ∈ rms, m.capability_id = cap.id ∧ (7 : ℚ)/10 ≤ m.match_score := by
  simp only [gap_analyzer_process]
  split_ifs with h
  · simp only [List.any_eq_true, Bool.and_eq_true, beq_iff_eq,
      decide_eq_true_eq] at h
    exact iff_of_true rfl h
  · simp only [List.any_eq_true, Bool.and_eq_true, beq_iff_eq,
      decide_eq_true_eq] at h
    exact iff_of_false (by simp) h

/-- Claim C10: a capability with no qualifying resource mapping and no
required problem mapping still yields a Gap, with zero blocked problems,
zero blocked research value and priority low. -/
theorem claim_C10 (w1 w2 w3 : ℚ) (rms : List CapabilityResourceMapping)
    (pms : List ProblemCapabilityMapping) (cap : Capability)
    (hno : ∀ m ∈ rms, m.capability_id = cap.id → m.match_score < (7 : ℚ)/10)
    (hreq : ∀ m ∈ pms, m.capability_id = cap.id → m.is_required ≠ 1) :
    ∃ g, gap_analyzer_process w1 w2 w3 rms pms cap = some g ∧
      g.num_blocked_problems = 0 ∧ g.blocked_research_value = 0 ∧
      g.priority = GapPriority.low := by
  have hany : (rms.any
      (fun m => m.capability_id == cap.id && decide ((7 : ℚ)/10 ≤ m.match_score))) = false := by
    simp only [List.any_eq_false, Bool.and_eq_true, beq_iff_eq, decide_eq_true_eq,
      not_and, not_le]
    exact hno
  have hfil : (pms.filter
      (fun m => m.capability_id == cap.id && m.is_required == 1)) = [] := by
    rw [List.filter_eq_nil_iff]
    intro m hm
    simp only [Bool.and_eq_true, beq_iff_eq, not_and]
    exact hreq m hm
  simp only [gap_analyzer_process, hany, Bool.false_eq_true, if_false, hfil]
  refine ⟨_, rfl, rfl, by norm_num, ?_⟩
  show determine_priority ((List.length [] : ℚ) * 2000000) [].length = GapPriority.low
  norm_num [determine_priority]

theorem claim_C10_witness :
    ∃ g, gap_analyzer_process (3/10) (3/10) (4/10) [] []
        ⟨0, "x", none, none⟩ = some g ∧
      g.num_blocked_problems = 0 ∧ g.blocked_research_value = 0 ∧
      g.priority = GapPriority.low :=
  claim_C10 (3/10) (3/10) (4/10) [] [] ⟨0, "x", none, none⟩
    (by simp) (by simp)

/-- A gap whose blocked research value is $5,000: positive but below the
claimed $10,000 market-size threshold. -/
def gap5000 : Gap :=
  { capability_id := 0, description := "", estimated_cost := none,
    estimated_time := none, blocked_research_value := 5000,
    num_blocked_problems := 0, priority := .low, impact_score := 0 }

/-- Claim C2, counterexample: a gap with `blocked_research_value = 5000`
(strictly between 0 and 10,000) receives a market_size contribution of 0.1,
where the claim asserts it receives none: the source gates this factor on
truthiness of the value, not on a ≥10,000 threshold. -/
theorem claim_C2_counterexample :
    market_size_factor gap5000 = some ((1 : ℚ)/10) ∧
    ("market_size", (1 : ℚ)/10) ∈ (predict_funding_attractiveness gap5000).factors := by
  constructor
  · norm_num [market_size_factor, gap5000]
  · norm_num [predict_funding_attractiveness, add_factor, impact_factor,
      cost_efficiency_factor, market_size_factor, feasibility_factor,
      opt_truthy, gap5000]

/-- Claim C2 (amended): for every gap with nonnegative
`blocked_research_value`, the market_size factor contributes 0.3 when the
value is ≥ $100M, 0.2 when it is ≥ $10M, 0.1 for every other nonzero value
(including values below $10,000), and nothing only when the value is 0. -/
theorem claim_C2_amended (gap : Gap) (h : 0 ≤ gap.blocked_research_value) :
    market_size_factor gap =
      (if 100000000 ≤ gap.blocked_research_value then some ((3 : ℚ)/10)
       else if 10000000 ≤ gap.blocked_research_value then some ((2 : ℚ)/10)
       else if 0 < gap.blocked_research_value then some ((1 : ℚ)/10)
       else none) := by
  unfold market_size_factor
  rcases eq_or_lt_of_le h with h0 | h0
  · rw [if_neg (fun hne => hne h0.symm)]
    rw [if_neg (by rw [← h0]; norm_num), if_neg (by rw [← h0]; norm_num),
      if_neg (by rw [← h0]; norm_num)]
  · rw [if_pos (ne_of_gt h0)]
    split_ifs <;> first | rfl | linarith

theorem claim_C2_witness :
    market_size_factor gap5000 =
      (if 100000000 ≤ gap5000.blocked_research_value then some ((3 : ℚ)/10)
       else if 10000000 ≤ gap5000.blocked_research_value then some ((2 : ℚ)/10)
       else if 0 < gap5000.blocked_research_value then some ((1 : ℚ)/10)
       else none) :=
  claim_C2_amended gap5000 (by norm_num [gap5000])

/-- Claim C9: the attractiveness score equals the sum of the recorded
factor values, clamped to at most 1 — every contribution added to the score
is recorded as a factor and no factor is recorded without being added. -/
theorem claim_C9 (gap : Gap) :
    (predict_funding_attractiveness gap).attractiveness_score =
      min 1 (((predict_funding_attractiveness gap).factors.map Prod.snd).sum) := by
  simp only [predict_funding_attractiveness]
  rcases impact_factor gap with _ | x <;>
  rcases cost_efficiency_factor gap with _ | y <;>
  rcases market_size_factor gap with _ | z <;>
  rcases feasibility_factor gap with _ | w <;>
    simp [add_factor] <;> first | rfl | (congr 1 <;> ring)

theorem impact_factor_nonneg (gap : Gap) (x : ℚ)
    (h : impact_factor gap = some x) : 0 ≤ x := by
  unfold impact_factor at h
  split_ifs at h
  rw [Option.some.injEq] at h
  rw [← h]
  exact le_min (by norm_num) (by positivity)

theorem cost_efficiency_factor_nonneg (gap : Gap) (x : ℚ)
    (h : cost_efficiency_factor gap = some x) : 0 ≤ x := by
  unfold cost_efficiency_factor at h
  split_ifs at h <;> rw [Option.some.injEq] at h <;> rw [← h] <;>
    split_ifs <;> norm_num

theorem market_size_factor_nonneg (gap : Gap) (x : ℚ)
    (h : market_size_factor gap = some x) : 0 ≤ x := by
  unfold market_size_factor at h
  split_ifs at h <;> rw [Option.some.injEq] at h <;> rw [← h] <;> norm_num

theorem feasibility_factor_nonneg (gap : Gap) (x : ℚ)
    (h : feasibility_factor gap = some x) : 0 ≤ x := by
  unfold feasibility_factor at h
  split_ifs at h <;> rw [Option.some.injEq] at h <;> rw [← h] <;> norm_num

theorem add_factor_fst_nonneg (acc : ℚ × List (String × ℚ)) (name : String)
    (f : Option ℚ) (hacc : 0 ≤ acc.1) (hf : ∀ x, f = some x → 0 ≤ x) :
    0 ≤ (add_factor acc name f).1 := by
  cases f with
  | none => simpa [add_factor] using hacc
  | some x =>
    have hx := hf x rfl
    simp only [add_factor]
    exact add_nonneg hacc hx

/-- A gap used to instantiate the score-bounds claim, with an estimated
cost above $10M. -/
def gap_bounds_example : Gap :=
  { capability_id := 0, description := "", estimated_cost := some 50000000,
    estimated_time := some 6, blocked_research_value := 0,
    num_blocked_problems := 3, priority := .low, impact_score := 0 }

/-- Claim C5: for nonnegative cost, time, blocked value and blocked-problem
count, the Gap Scorer's impact score and the Funding Scorer's
attractiveness score both lie in [0, 1], even when cost exceeds $10M and
the un-floored cost sub-score goes negative before the final clamp. -/
theorem claim_C5 :
    (∀ (cost time blocked_value : ℚ) (num_blocked : Nat),
        0 ≤ cost → 0 ≤ time → 0 ≤ blocked_value →
        0 ≤ calculate_impact_score (3/10) (3/10) (4/10) cost time blocked_value num_blocked ∧
          calculate_impact_score (3/10) (3/10) (4/10) cost time blocked_value num_blocked ≤ 1) ∧
    (∀ gap : Gap,
        0 ≤ gap.blocked_research_value →
        (∀ c, gap.estimated_cost = some c → 0 ≤ c) →
        (∀ t, gap.estimated_time = some t → 0 ≤ t) →
        0 ≤ (predict_funding_attractiveness gap).attractiveness_score ∧
          (predict_funding_attractiveness gap).attractiveness_score ≤ 1) := by
  constructor
  · intro cost time blocked_value num_blocked _ _ _
    unfold calculate_impact_score
    exact ⟨le_min (by norm_num) (le_max_left 0 _), min_le_left _ _⟩
  · intro gap _ _ _
    constructor
    · show 0 ≤ min 1 (add_factor (add_factor (add_factor (add_factor
        ((0 : ℚ), ([] : List (String × ℚ))) "impact" (impact_factor gap))
        "cost_efficiency" (cost_efficiency_factor gap))
        "market_size" (market_size_factor gap))
        "feasibility" (feasibility_factor gap)).1
      refine le_min (by norm_num) ?_
      exact add_factor_fst_nonneg _ _ _
        (add_factor_fst_nonneg _ _ _
          (add_factor_fst_nonneg _ _ _
            (add_factor_fst_nonneg _ _ _ (le_refl 0)
              (fun x h => impact_factor_nonneg gap x h))
            (fun x h => cost_efficiency_factor_nonneg gap x h))
          (fun x h => market_size_factor_nonneg gap x h))
        (fun x h => feasibility_factor_nonneg gap x h)
    · show min 1 (add_factor (add_factor (add_factor (add_factor
        ((0 : ℚ), ([] : List (String × ℚ))) "impact" (impact_factor gap))
        "cost_efficiency" (cost_efficiency_factor gap))
        "market_size" (market_size_factor gap))
        "feasibility" (feasibility_factor gap)).1 ≤ 1
      exact min_le_left _ _

theorem claim_C5_witness :
    (0 ≤ calculate_impact_score (3/10) (3/10) (4/10) 50000000 0 0 0 ∧
      calculate_impact_score (3/10) (3/10) (4/10) 50000000 0 0 0 ≤ 1) ∧
    (0 ≤ (predict_funding_attractiveness gap_bounds_example).attractiveness_score ∧
      (predict_funding_attractiveness gap_bounds_example).attractiveness_score ≤ 1) :=
  ⟨claim_C5.1 50000000 0 0 0 (by norm_num) (le_refl 0) (le_refl 0),
   claim_C5.2 gap_bounds_example (by norm_num [gap_bounds_example])
     (by intro c hc
         rw [show gap_bounds_example.estimated_cost = some 50000000 from rfl,
           Option.some.injEq] at hc
         rw [← hc]; norm_num)
     (by intro t ht
         rw [show gap_bounds_example.estimated_time = some 6 from rfl,
           Option.some.injEq] at ht
         rw [← ht]; norm_num)⟩

/-- The model_system capability of the end-to-end scenario: cost $100,000,
time 12 months. -/
def cap_model_system : Capability :=
  { id := 1, name := "organoid aging model",
    estimated_cost := some 100000, estimated_time := some 12 }

/-- Twelve required problem mappings for that capability. -/
def pms12 : List ProblemCapabilityMapping := List.replicate 12 ⟨1, 1⟩

/-- Claim C4: with default weights 0.3/0.3/0.4, a model_system capability
with cost 100,000 and time 12, twelve required blocked problems and no
qualifying resource match yields a Gap with blocked value $24M, priority
critical, impact score 0.3·0.99 + 0.3·0.8 + 0.4·(0.24+0.6)/2 = 0.705, the
description "Missing capability: {name}", and cost/time copied over. -/
theorem claim_C4 :
    gap_analyzer_process (3/10) (3/10) (4/10) [] pms12 cap_model_system =
      some { capability_id := 1,
             description := "Missing capability: organoid aging model",
             estimated_cost := some 100000,
             estimated_time := some 12,
             blocked_research_value := 24000000,
             num_blocked_problems := 12,
             priority := .critical,
             impact_score := 3/10 * (99/100) + 3/10 * (8/10) +
               4/10 * ((24/100 + 6/10)/2) } := by
  have hn : (List.filter
      (fun m => m.capability_id == 1 && m.is_required == 1)
      pms12).length = 12 := by decide
  have hdesc : ("Missing capability: " ++ cap_model_system.name) =
      "Missing capability: organoid aging model" := rfl
  have hid : cap_model_system.id = 1 := rfl
  have hcost : cap_model_system.estimated_cost = some 100000 := rfl
  have htime : cap_model_system.estimated_time = some 12 := rfl
  simp only [gap_analyzer_process, List.any_nil, Bool.false_eq_true, if_false,
    hn, hdesc, hid, hcost, htime, Option.getD_some, Option.some.injEq,
    Gap.mk.injEq]
  norm_num [determine_priority, calculate_impact_score, min_def, max_def]

/-- Two active, identically described resources for the degraded-mode
counterexample. -/
def res_dup1 : Resource := ⟨1, "proteomics", "", true⟩

/-- See `res_dup1`. -/
def res_dup2 : Resource := ⟨2, "proteomics", "", true⟩

/-- Claim C1, counterexample: the two active resources have Jaccard
similarity 1 ≥ 0.9, yet with no embedding model `find_duplicates` returns
the empty list — it does not fall back to Jaccard clustering, contradicting
the claim that the result contains a cluster holding both resources. -/
theorem claim_C1_counterexample :
    simple_similarity (resource_text res_dup1) res_dup2 = 1 ∧
    find_duplicates none [res_dup1, res_dup2] (9/10) = [] := by
  constructor
  · have h1 : (py_lower_split (resource_text res_dup1)).dedup =
        ["proteomics".data] := by decide
    have h2 : (py_lower_split (resource_text res_dup2)).dedup =
        ["proteomics".data] := by decide
    norm_num [simple_similarity, h1, h2]
  · rfl

/-- Claim C1 (amended): when no embedding model is available,
`find_duplicates` short-circuits and returns the empty list for every
catalog and threshold; the automatic Jaccard fallback governs only the
single-pair similarity function `_calculate_similarity` (as used for
capability–resource matching), not duplicate clustering. -/
theorem claim_C1_amended :
    (∀ (catalog : List Resource) (threshold : ℚ),
        find_duplicates none catalog threshold = []) ∧
    (∀ (capability_text : String) (r : Resource),
        calculate_similarity none capability_text r =
          simple_similarity capability_text r) := by
  constructor
  · intro catalog threshold
    simp [find_duplicates]
  · intro capability_text r
    rfl

/-- Resource A of the seed-based clustering scenario. -/
def res_A : Resource := ⟨1, "alpha", "x", true⟩

/-- Resource B of the seed-based clustering scenario. -/
def res_B : Resource := ⟨2, "beta", "y", true⟩

/-- Resource C of the seed-based clustering scenario. -/
def res_C : Resource := ⟨3, "gamma", "z", true⟩

/-- An embedding-based scorer realizing sim(A,B)=0.95, sim(A,C)=0.92,
sim(B,C)=0.80 on the three resources' texts. -/
def embed_sim_ABC : String → String → ℚ := fun t1 t2 =>
  if t1 = "alpha x" ∧ t2 = "beta y" then 19/20
  else if t1 = "alpha x" ∧ t2 = "gamma z" then 23/25
  else if t1 = "beta y" ∧ t2 = "gamma z" then 4/5
  else 0

/-- Claim C8: with threshold 0.9 and pairwise similarities 0.95/0.92/0.80,
the duplication detector returns exactly one cluster [A, B, C]: B and C
both attach to the seed A although sim(B,C) is below the threshold. -/
theorem claim_C8 :
    find_duplicates (some embed_sim_ABC) [res_A, res_B, res_C] (9/10) =
      [[res_A, res_B, res_C]] := by
  have hAB : calculate_similarity (some embed_sim_ABC) (resource_text res_A)
      res_B = 19/20 := rfl
  have hAC : calculate_similarity (some embed_sim_ABC) (resource_text res_A)
      res_C = 23/25 := rfl
  have hactA : res_A.is_active = true := rfl
  have hactB : res_B.is_active = true := rfl
  have hactC : res_C.is_active = true := rfl
  have hidA : res_A.id = 1 := rfl
  have hidB : res_B.id = 2 := rfl
  have hidC : res_C.id = 3 := rfl
  norm_num [find_duplicates, find_duplicates_loop, attach_duplicates,
    hAB, hAC, hactA, hactB, hactC, hidA, hidB, hidC]
